import Mathlib

/-!
# Verification of `MatplotlibCustomPlot.CustomBoxPlot`

A shallow embedding of `src/MatplotlibCustomPlot/CustomBoxPlot.py`.

The repository is a single class `CustomBoxPlot` that owns a matplotlib
subplot handle and a tick registry (`current_positions`, `current_ticklabels`)
and exposes one operation `add_boxplot` which validates and broadcasts its
parameters and then issues drawing primitives to the subplot.

Embedding choices:

* Dynamically typed Python arguments are modelled by `PyVal`; `isinstance`
  and the `Sequence` protocol follow Python semantics (`bool` is a subclass
  of `int`, `str` is a `Sequence` of one-character strings).
* The matplotlib surface is opaque: drawing is modelled as an emitted trace
  of `DrawCall` values, in program order.
* Errors are modelled structurally: `typeError` for Python `TypeError`,
  `valueErrorShape` / `valueErrorLength` for the two `ValueError` raises,
  `indexError` for out-of-range indexing.  A call returns the final object
  state, the trace of drawing calls made before returning or raising, and
  the raised error if any (`Outcome`).
* The numpy reductions `nanmean` / `nanstd` / `nanmin` / `nanmax` are
  external library capability (not part of this repository); they are kept
  abstract as a `NumpyStats` record of total functions on the data.
-/

namespace MatplotlibCustomPlot

/-- The Python types that `convert2sequence` checks against
(`int`, `str`, `bool` in the source). -/
inductive PyType
  | int
  | str
  | bool
  deriving DecidableEq

/-- A dynamically typed Python value, as passed for the `position`, `label`
and style parameters of `add_boxplot`.  `vList` stands for any Python
sequence literal (list or tuple). -/
inductive PyVal
  | vInt (n : ℤ)
  | vBool (b : Bool)
  | vStr (s : String)
  | vList (xs : List PyVal)
  | vNone

/-- Python `isinstance` for the three types used by the source.
`bool` is a subclass of `int` in Python, so `isinstance(True, int)` holds. -/
def isinstance : PyVal → PyType → Bool
  | .vInt _, .int => true
  | .vBool _, .int => true
  | .vBool _, .bool => true
  | .vStr _, .str => true
  | _, _ => false

/-- The `Sequence` protocol used by `isinstance(value, Sequence)` in the
source: lists/tuples are sequences of their elements, and a `str` is a
sequence of its one-character strings.  Non-sequences give `none`. -/
def seqElems : PyVal → Option (List PyVal)
  | .vList xs => some xs
  | .vStr s => some (s.toList.map (fun c => .vStr (String.mk [c])))
  | _ => none

/-- The errors the code can raise.  `typeError` carries the offending
parameter name, `valueErrorShape` the rejected `ndim`, `valueErrorLength`
the parameter name with expected and received lengths, `indexError` a tag
naming the indexing expression that was out of range. -/
inductive PyError
  | typeError (param : String)
  | valueErrorShape (ndim : ℕ)
  | valueErrorLength (param : String) (expected actual : ℕ)
  | indexError (ctx : String)
  deriving DecidableEq

/-- The type `numpy.ndarray` as far as the source inspects it: a 0-, 1- or
2-dimensional numeric array, or an array of dimension `n ≥ 3` whose
contents the code never reads (it raises on `ndim` first). -/
inductive NDArray
  | d0 (x : ℚ)
  | d1 (xs : List ℚ)
  | d2 (rows : List (List ℚ))
  | dN (n : ℕ)

/-- The dimensionality `data.ndim`. -/
def NDArray.ndim : NDArray → ℕ
  | .d0 _ => 0
  | .d1 _ => 1
  | .d2 _ => 2
  | .dN n => n

/-- Reading `data.shape[0]`.  For a 0-dimensional array `shape` is the empty tuple,
so indexing it raises `IndexError`. -/
def NDArray.shape0 : NDArray → Except PyError ℕ
  | .d0 _ => .error (.indexError "shape")
  | .d1 xs => .ok xs.length
  | .d2 rows => .ok rows.length
  | .dN _ => .ok 0

/-- The `data` argument of `add_boxplot`: either a numpy array or any other
Python value (rejected by the `isinstance(data, numpy.ndarray)` check). -/
inductive DataArg
  | array (a : NDArray)
  | notArray (v : PyVal)

/-- The external numpy NaN-aware reductions.  Modelled from the spec:
`mean`, `std`, `min`, `max` are standard numeric-library capability,
out of scope of this repository; the spec states they propagate NaN and do
not crash, so they are kept abstract as total functions on the data. -/
structure NumpyStats where
  nanmean : List ℚ → ℚ
  nanstd : List ℚ → ℚ
  nanmin : List ℚ → ℚ
  nanmax : List ℚ → ℚ

/-- Numeric value of a validated `int`-instance (`bool` counts as `int`
with `True == 1`, `False == 0`, matching Python numeric equality).
Only applied to values that passed `isinstance _ int`. -/
def pyInt : PyVal → ℤ
  | .vInt n => n
  | .vBool b => bif b then 1 else 0
  | _ => 0

/-- String value of a validated `str`-instance.
Only applied to values that passed `isinstance _ str`. -/
def pyStr : PyVal → String
  | .vStr s => s
  | _ => ""

/-- Truth value of a validated `bool`-instance.
Only applied to values that passed `isinstance _ bool`. -/
def pyBool : PyVal → Bool
  | .vBool b => b
  | _ => false

/-- One drawing primitive issued to the matplotlib surface, in the order the
source issues them: `add_patch` of a `Rectangle`, `ax.plot` of a two-point
segment, `ax.text` (carrying the raw mean; the `.2f` formatting is external),
and the tick configuration pushes `set_xticks` / `set_xticklabels`. -/
inductive DrawCall
  | addPatchRect (x y width height : ℚ) (fill : Bool) (edgecolor : String) (linewidth : ℤ)
  | plot (xs ys : List ℚ) (color : String) (lw : ℤ)
  | text (x y : ℚ) (value : ℚ) (color : String)
  | setXticks (ticks : List ℤ)
  | setXticklabels (labels : List String)
  deriving DecidableEq

/-- The bound subplot handle produced by `figure.add_subplot`. -/
structure Ax where
  rows : ℤ
  cols : ℤ
  index : ℤ
  deriving DecidableEq

/-- The `CustomBoxPlot` object: the bound subplot handle and the tick
registry fields `current_positions` / `current_ticklabels`. -/
structure CustomBoxPlot where
  ax : Ax
  current_positions : List ℤ
  current_ticklabels : List String
  deriving DecidableEq

/-- Result of one `add_boxplot` call: the object state when the call
returned or raised, the drawing calls issued before that point, and the
raised error if any. -/
structure Outcome where
  state : CustomBoxPlot
  calls : List DrawCall
  err : Option PyError
  deriving DecidableEq

/-- Modelled from the spec: the external `figure.add_subplot` of the
plotting library (not part of this repository).  Per the spec and the class
docstring it fails unless given exactly 3 positive integers, and otherwise
returns a bound subplot handle. -/
def addSubplot : List PyVal → Except PyError Ax
  | [.vInt r, .vInt c, .vInt i] =>
    if 0 < r ∧ 0 < c ∧ 0 < i then .ok ⟨r, c, i⟩
    else .error (.typeError "ax_location")
  | _ => .error (.typeError "ax_location")

/-- Constructor `CustomBoxPlot.__init__`: bind the subplot handle via
`figure.add_subplot(*ax_location)` and initialize the two registry lists to
empty.  If `add_subplot` raises, no object is produced. -/
def CustomBoxPlot.init (ax_location : List PyVal) : Except PyError CustomBoxPlot :=
  match addSubplot ax_location with
  | .error e => .error e
  | .ok ax => .ok ⟨ax, [], []⟩

/-- The inner helper `convert2sequence(value, N, name, itype)` of
`add_boxplot`: a scalar of type `itype` is replicated `N` times; a sequence
must have length exactly `N` (else `ValueError`) and every element of type
`itype` (else `TypeError`); anything else is a `TypeError`. -/
def convert2sequence (value : PyVal) (N : ℕ) (name : String) (itype : PyType) :
    Except PyError (List PyVal) :=
  if isinstance value itype then
    .ok (List.replicate N value)
  else
    match seqElems value with
    | some elems =>
      if elems.length = N then
        if elems.all (fun e => isinstance e itype) then .ok elems
        else .error (.typeError name)
      else .error (.valueErrorLength name N elems.length)
    | none => .error (.typeError name)

/-- Lines 140-141 of the source: a `None` label defaults to
`copy.deepcopy(position)`; the values involved are immutable, so the deep
copy is the same value. -/
def labelDefault (position label : PyVal) : PyVal :=
  match label with
  | .vNone => position
  | _ => label

/-- The eight parameters of `add_boxplot` after normalization by
`convert2sequence` (all lists have length `N`). -/
structure ParamSeqs where
  position : List PyVal
  label : List PyVal
  box_color : List PyVal
  average_color : List PyVal
  linewidth : List PyVal
  draw_whiskers : List PyVal
  draw_average : List PyVal
  print_average : List PyVal

/-- Lines 150-157 of the source: the eight `convert2sequence` calls, in
program order, each raising immediately on failure. -/
def convertAll (position label box_color average_color linewidth
    draw_whiskers draw_average print_average : PyVal) (N : ℕ) :
    Except PyError ParamSeqs :=
  match convert2sequence position N "position" .int with
  | .error e => .error e
  | .ok position =>
  match convert2sequence label N "label" .str with
  | .error e => .error e
  | .ok label =>
  match convert2sequence box_color N "box_color" .str with
  | .error e => .error e
  | .ok box_color =>
  match convert2sequence average_color N "average_color" .str with
  | .error e => .error e
  | .ok average_color =>
  match convert2sequence linewidth N "linewidth" .int with
  | .error e => .error e
  | .ok linewidth =>
  match convert2sequence draw_whiskers N "draw_whiskers" .bool with
  | .error e => .error e
  | .ok draw_whiskers =>
  match convert2sequence draw_average N "draw_average" .bool with
  | .error e => .error e
  | .ok draw_average =>
  match convert2sequence print_average N "print_average" .bool with
  | .error e => .error e
  | .ok print_average =>
    .ok ⟨position, label, box_color, average_color, linewidth,
         draw_whiskers, draw_average, print_average⟩

/-- Comparison of registry entries by position value, the key used by
`numpy.argsort(self.current_positions)`. -/
def posLe (a b : ℤ × String) : Prop := a.1 ≤ b.1

instance : DecidableRel posLe := fun a b => inferInstanceAs (Decidable (a.1 ≤ b.1))

instance : IsTotal (ℤ × String) posLe := ⟨fun a b => le_total a.1 b.1⟩

instance : IsTrans (ℤ × String) posLe := ⟨fun _ _ _ h1 h2 => le_trans h1 h2⟩

/-- Lines 210-212 of the source: `argsort` the registry positions and apply
the same index permutation to positions and ticklabels, i.e. sort the
zipped pairs by position.  Registry positions are unique (membership guard
on line 205), so any correct sort yields the argsort reordering. -/
def sortPairs (l : List (ℤ × String)) : List (ℤ × String) :=
  List.insertionSort posLe l

/-- Lines 172-215 of the source: the single-series (1-D) drawing logic,
after normalization.  Each `[0]` index is evaluated where the source
evaluates it, so an out-of-range index raises after the drawing calls that
preceded it.  The tick registry is updated only when the position is new,
and the sorted registry is then pushed via `set_xticks` /
`set_xticklabels`. -/
def CustomBoxPlot.leafDraw (stats : NumpyStats) (self : CustomBoxPlot) (xs : List ℚ)
    (position label box_color average_color linewidth
     draw_whiskers draw_average print_average : List PyVal) : Outcome :=
  let mean := stats.nanmean xs
  let std := stats.nanstd xs
  let min_val := stats.nanmin xs
  let max_val := stats.nanmax xs
  let center := mean
  let box_start := mean - std
  let box_end := mean + std
  let whisker_min := min_val
  let whisker_max := max_val
  match position.head?, box_color.head?, linewidth.head? with
  | some p0, some bc0, some lw0 =>
    let pz := pyInt p0
    let p : ℚ := (pz : ℚ)
    let bc := pyStr bc0
    let lw := pyInt lw0
    let rectCall := DrawCall.addPatchRect (p - 0.1) box_start 0.2 (box_end - box_start)
      false bc lw
    match draw_whiskers.head? with
    | none => ⟨self, [rectCall], some (.indexError "draw_whiskers")⟩
    | some dw0 =>
      let whiskerCalls :=
        if pyBool dw0 then
          [DrawCall.plot [p, p] [whisker_min, box_start] bc lw,
           DrawCall.plot [p, p] [box_end, whisker_max] bc lw,
           DrawCall.plot [p - 0.1, p + 0.1] [whisker_min, whisker_min] bc lw,
           DrawCall.plot [p - 0.1, p + 0.1] [whisker_max, whisker_max] bc lw]
        else []
      let acc1 := rectCall :: whiskerCalls
      match draw_average.head? with
      | none => ⟨self, acc1, some (.indexError "draw_average")⟩
      | some da0 =>
        let avgStep : Except PyError (List DrawCall) :=
          if pyBool da0 then
            (match average_color.head? with
             | none => .error (.indexError "average_color")
             | some ac0 =>
               .ok (acc1 ++ [DrawCall.plot [p - 0.1, p + 0.1] [center, center] (pyStr ac0) lw]))
          else .ok acc1
        match avgStep with
        | .error e => ⟨self, acc1, some e⟩
        | .ok acc2 =>
          match print_average.head? with
          | none => ⟨self, acc2, some (.indexError "print_average")⟩
          | some pa0 =>
            let txtStep : Except PyError (List DrawCall) :=
              if pyBool pa0 then
                (match average_color.head? with
                 | none => .error (.indexError "average_color")
                 | some ac0 =>
                   .ok (acc2 ++ [DrawCall.text (p + 0.2) center mean (pyStr ac0)]))
              else .ok acc2
            match txtStep with
            | .error e => ⟨self, acc2, some e⟩
            | .ok acc3 =>
              if pz ∈ self.current_positions then ⟨self, acc3, none⟩
              else
                let positions := self.current_positions ++ [pz]
                match label.head? with
                | none =>
                  ⟨{ self with current_positions := positions }, acc3,
                   some (.indexError "label")⟩
                | some l0 =>
                  let labels := self.current_ticklabels ++ [pyStr l0]
                  let sorted := sortPairs (positions.zip labels)
                  ⟨{ self with current_positions := positions, current_ticklabels := labels },
                   acc3 ++ [DrawCall.setXticks (sorted.map Prod.fst),
                            DrawCall.setXticklabels (sorted.map Prod.snd)],
                   none⟩
  | _, _, _ => ⟨self, [], some (.indexError "position")⟩

/-- The body of `add_boxplot` specialized to a 1-dimensional array
argument: exactly what each recursive call on line 161-169 performs, since
`data[index,:]` is always a 1-D `ndarray` (the `isinstance`, `ndim` and
`shape[0]` steps are concrete there).  `add_boxplot_d1_agrees` below proves
it equal to `add_boxplot` on 1-D arrays. -/
def CustomBoxPlot.add_boxplot1 (stats : NumpyStats) (self : CustomBoxPlot) (xs : List ℚ)
    (position label box_color average_color linewidth
     draw_whiskers draw_average print_average : PyVal) : Outcome :=
  match convertAll position (labelDefault position label) box_color average_color linewidth
      draw_whiskers draw_average print_average xs.length with
  | .error e => ⟨self, [], some e⟩
  | .ok ps =>
    leafDraw stats self xs ps.position ps.label ps.box_color ps.average_color
      ps.linewidth ps.draw_whiskers ps.draw_average ps.print_average

/-- The per-row arguments of one iteration of the 2-D dispatch loop
(line 160-169): `data[index,:]` together with the `index`-th element of
every normalized parameter list. -/
structure SeriesArgs where
  row : List ℚ
  position : PyVal
  label : PyVal
  box_color : PyVal
  average_color : PyVal
  linewidth : PyVal
  draw_whiskers : PyVal
  draw_average : PyVal
  print_average : PyVal

/-- Zip the rows with the eight normalized parameter lists (all have length
`N = data.shape[0]`), mirroring indexing by `index in range(N)`. -/
def zipArgs : List (List ℚ) → List PyVal → List PyVal → List PyVal → List PyVal →
    List PyVal → List PyVal → List PyVal → List PyVal → List SeriesArgs
  | row :: rows, p :: ps, l :: ls, bc :: bcs, ac :: acs, lw :: lws,
      dw :: dws, da :: das, pa :: pas =>
    ⟨row, p, l, bc, ac, lw, dw, da, pa⟩ ::
      zipArgs rows ps ls bcs acs lws dws das pas
  | _, _, _, _, _, _, _, _, _ => []

/-- The 2-D dispatch loop `for index in range(N)` (lines 160-170): each row
is handed to the recursive `add_boxplot` call (realized by `add_boxplot1`);
an exception propagates at once, keeping the drawing calls and registry
mutations already performed. -/
def CustomBoxPlot.runRows (stats : NumpyStats) (self : CustomBoxPlot) :
    List SeriesArgs → Outcome
  | [] => ⟨self, [], none⟩
  | item :: rest =>
    match add_boxplot1 stats self item.row item.position item.label
        item.box_color item.average_color item.linewidth
        item.draw_whiskers item.draw_average item.print_average with
    | ⟨st1, calls1, some e⟩ => ⟨st1, calls1, some e⟩
    | ⟨st1, calls1, none⟩ =>
      match runRows stats st1 rest with
      | ⟨st2, calls2, err2⟩ => ⟨st2, calls1 ++ calls2, err2⟩

/-- Method `CustomBoxPlot.add_boxplot` (lines 62-215): default the label to (a deep
copy of) `position`, check `data` is an array, reject `ndim >= 3`, read
`N = data.shape[0]`, normalize the eight parameters, then either fan out
over the rows of a 2-D array or run the single-series drawing logic. -/
def CustomBoxPlot.add_boxplot (stats : NumpyStats) (self : CustomBoxPlot) (data : DataArg)
    (position label box_color average_color linewidth
     draw_whiskers draw_average print_average : PyVal) : Outcome :=
  match data with
  | .notArray _ => ⟨self, [], some (.typeError "data")⟩
  | .array a =>
    if 3 ≤ a.ndim then ⟨self, [], some (.valueErrorShape a.ndim)⟩
    else
      match a.shape0 with
      | .error e => ⟨self, [], some e⟩
      | .ok N =>
        match convertAll position (labelDefault position label) box_color average_color
            linewidth draw_whiskers draw_average print_average N with
        | .error e => ⟨self, [], some e⟩
        | .ok ps =>
          match a with
          | .d1 xs =>
            leafDraw stats self xs ps.position ps.label ps.box_color
              ps.average_color ps.linewidth ps.draw_whiskers ps.draw_average
              ps.print_average
          | .d2 rows =>
            runRows stats self (zipArgs rows ps.position ps.label ps.box_color
              ps.average_color ps.linewidth ps.draw_whiskers ps.draw_average
              ps.print_average)
          -- unreachable: a 0-d array fails at shape0, an array of dimension
          -- three or more at the ndim guard
          | _ => ⟨self, [], none⟩

/-- A concrete instance of the external numpy reductions, used to evaluate
the model at concrete inputs.  Claims whose truth depends on the reductions
are stated for every `NumpyStats`. -/
def statsZero : NumpyStats := ⟨fun _ => 0, fun _ => 0, fun _ => 0, fun _ => 0⟩

/-- A freshly constructed renderer bound to the full-figure subplot
`(1,1,1)`, with empty tick registry. -/
def emptyPlot : CustomBoxPlot := ⟨⟨1, 1, 1⟩, [], []⟩

/-- A renderer state reached after two calls at positions 3 and 1 (labels
"a" and "b"), used to exercise the tick-ordering claim at the spec's
example positions `{3, 1, 2}`. -/
def tickPlot : CustomBoxPlot := ⟨⟨1, 1, 1⟩, [3, 1], ["a", "b"]⟩

/-- Claim C4 support: the precondition the spec states for the subplot
coordinate triple — exactly 3 positive integers. -/
def validTriple : List PyVal → Bool
  | [.vInt r, .vInt c, .vInt i] => decide (0 < r) && decide (0 < c) && decide (0 < i)
  | _ => false

/-- The registry invariant stated by the spec: the two parallel lists have
equal length and positions are unique. -/
def registryInv (self : CustomBoxPlot) : Prop :=
  self.current_positions.length = self.current_ticklabels.length ∧
    self.current_positions.Nodup

/-- The errors of the documented validation taxonomy: `TypeError`
(`InvalidArgument`), the `ndim` `ValueError` (`InvalidShape`) and the
length `ValueError` (`InvalidLength`) — everything except `IndexError`. -/
def isValidationError : PyError → Bool
  | .indexError _ => false
  | _ => true

/-- A per-row argument bundle whose fields all have the validated types
(what `convertAll` guarantees for the elements it hands to the loop). -/
def SeriesArgsValid (it : SeriesArgs) : Prop :=
  isinstance it.position .int = true ∧ isinstance it.label .str = true ∧
  isinstance it.box_color .str = true ∧ isinstance it.average_color .str = true ∧
  isinstance it.linewidth .int = true ∧ isinstance it.draw_whiskers .bool = true ∧
  isinstance it.draw_average .bool = true ∧ isinstance it.print_average .bool = true

/-- Claim C1: with `label` omitted on a 1-D array and an integer position,
`add_boxplot` raises `TypeError` for `label` before doing anything: the
defaulted label (a deep copy of the integer `position`, line 140-141) is
then validated against `str` (line 151) and rejected, so an integer
position can never become its own tick label.  This contradicts the
docstring (`Default : None, means that the label is position parameter`)
and the signature annotation `label : Optional[Union[int, Sequence[int]]]`. -/
theorem add_boxplot_label_default_type_error
    (stats : NumpyStats) (self : CustomBoxPlot) (xs : List ℚ) (p : ℤ)
    (bc ac : String) (lw : ℤ) (dw da pa : Bool) :
    CustomBoxPlot.add_boxplot stats self (.array (.d1 xs)) (.vInt p) .vNone
      (.vStr bc) (.vStr ac) (.vInt lw) (.vBool dw) (.vBool da) (.vBool pa) =
      ⟨self, [], some (.typeError "label")⟩ := by
  simp [CustomBoxPlot.add_boxplot, labelDefault, NDArray.ndim, NDArray.shape0, convertAll,
    convert2sequence, isinstance, seqElems]

/-- Claim C10: a 2-D array with zero rows gives `N = 0`; every scalar
parameter broadcasts to the empty list, the dispatch loop runs zero
iterations, and the call returns with no drawing calls, no error, and the
tick registry untouched. -/
theorem add_boxplot_zero_rows_noop
    (stats : NumpyStats) (self : CustomBoxPlot) (p : ℤ) (l bc ac : String)
    (lw : ℤ) (dw da pa : Bool) :
    CustomBoxPlot.add_boxplot stats self (.array (.d2 [])) (.vInt p) (.vStr l)
      (.vStr bc) (.vStr ac) (.vInt lw) (.vBool dw) (.vBool da) (.vBool pa) =
      ⟨self, [], none⟩ := by
  simp [CustomBoxPlot.add_boxplot, labelDefault, NDArray.ndim, NDArray.shape0, convertAll,
    convert2sequence, isinstance, zipArgs, CustomBoxPlot.runRows]

/-- Claim C9 (counterexample): for the empty 1-D array with scalar
`position = 5` and `label` omitted, the call raises `TypeError` for `label`
(an error of the documented taxonomy, `InvalidArgument`), not the
`IndexError` from `position[0]` that the claim asserts. -/
theorem empty_1d_default_label_not_index_error :
    (CustomBoxPlot.add_boxplot statsZero emptyPlot (.array (.d1 [])) (.vInt 5) .vNone
      (.vStr "black") (.vStr "red") (.vInt 2) (.vBool true) (.vBool true) (.vBool false)).err =
      some (.typeError "label") := by
  rfl

/-- Claim C9 (amended): a 0-dimensional array always raises `IndexError`
from the unguarded `data.shape[0]` (only `ndim >= 3` is guarded); an empty
1-D array with a scalar position and an explicit string label raises
`IndexError` from the unguarded `position[0]`; but with `label` omitted the
defaulted integer label fails the `str` validation first, raising
`TypeError` (`InvalidArgument`) before `position[0]` is ever reached. -/
theorem add_boxplot_unguarded_indexing :
    (∀ (stats : NumpyStats) (self : CustomBoxPlot) (x : ℚ)
       (position label box_color average_color linewidth
        draw_whiskers draw_average print_average : PyVal),
       CustomBoxPlot.add_boxplot stats self (.array (.d0 x)) position label
         box_color average_color linewidth draw_whiskers draw_average print_average =
         ⟨self, [], some (.indexError "shape")⟩) ∧
    (∀ (stats : NumpyStats) (self : CustomBoxPlot) (p : ℤ) (l bc ac : String)
       (lw : ℤ) (dw da pa : Bool),
       CustomBoxPlot.add_boxplot stats self (.array (.d1 [])) (.vInt p) (.vStr l)
         (.vStr bc) (.vStr ac) (.vInt lw) (.vBool dw) (.vBool da) (.vBool pa) =
         ⟨self, [], some (.indexError "position")⟩) ∧
    (∀ (stats : NumpyStats) (self : CustomBoxPlot) (p : ℤ) (bc ac : String)
       (lw : ℤ) (dw da pa : Bool),
       CustomBoxPlot.add_boxplot stats self (.array (.d1 [])) (.vInt p) .vNone
         (.vStr bc) (.vStr ac) (.vInt lw) (.vBool dw) (.vBool da) (.vBool pa) =
         ⟨self, [], some (.typeError "label")⟩) := by
  refine ⟨fun stats self x pos lab bc ac lw dw da pa => ?_,
          fun stats self p l bc ac lw dw da pa => ?_,
          fun stats self p bc ac lw dw da pa => ?_⟩
  · simp [CustomBoxPlot.add_boxplot, labelDefault, NDArray.ndim, NDArray.shape0]
  · simp [CustomBoxPlot.add_boxplot, labelDefault, NDArray.ndim, NDArray.shape0, convertAll,
      convert2sequence, isinstance, CustomBoxPlot.leafDraw]
  · simp [CustomBoxPlot.add_boxplot, labelDefault, NDArray.ndim, NDArray.shape0, convertAll,
      convert2sequence, isinstance, seqElems]

/-- Claim C2 (counterexample): on the 1-D array `[1, 2]` the code sets
`N = data.shape[0] = 2`, not the series count 1: a `position` sequence of
length 1 is rejected with the length error, while a sequence of length 2 is
accepted — the claim asserts exactly the opposite acceptance. -/
theorem seq_length_one_rejected_for_1d :
    (CustomBoxPlot.add_boxplot statsZero emptyPlot (.array (.d1 [1, 2]))
        (.vList [.vInt 5]) (.vStr "x") (.vStr "black") (.vStr "red") (.vInt 2)
        (.vBool true) (.vBool true) (.vBool false)).err =
      some (.valueErrorLength "position" 2 1) ∧
    (CustomBoxPlot.add_boxplot statsZero emptyPlot (.array (.d1 [1, 2]))
        (.vList [.vInt 5, .vInt 7]) (.vStr "x") (.vStr "black") (.vStr "red") (.vInt 2)
        (.vBool true) (.vBool true) (.vBool false)).err = none :=
  ⟨rfl, rfl⟩

/-- Claim C7 (counterexample): on the 1-D array `[1, 2]` (one series), the
scalar `linewidth = 2` succeeds and draws, while the length-1 sequence
`[2]` (the series count the claim uses) is rejected with an
`InvalidLength` error and draws nothing — the two calls are not
equivalent. -/
theorem scalar_vs_length_one_sequence_differ :
    (CustomBoxPlot.add_boxplot statsZero emptyPlot (.array (.d1 [1, 2]))
        (.vInt 5) (.vStr "x") (.vStr "black") (.vStr "red") (.vInt 2)
        (.vBool true) (.vBool true) (.vBool false)).calls ≠
      (CustomBoxPlot.add_boxplot statsZero emptyPlot (.array (.d1 [1, 2]))
        (.vInt 5) (.vStr "x") (.vStr "black") (.vStr "red") (.vList [.vInt 2])
        (.vBool true) (.vBool true) (.vBool false)).calls ∧
    (CustomBoxPlot.add_boxplot statsZero emptyPlot (.array (.d1 [1, 2]))
        (.vInt 5) (.vStr "x") (.vStr "black") (.vStr "red") (.vList [.vInt 2])
        (.vBool true) (.vBool true) (.vBool false)).err =
      some (.valueErrorLength "linewidth" 2 1) :=
  ⟨by decide, rfl⟩

/-! ### Normalization lemmas for `convert2sequence` and `convertAll` -/

@[simp] theorem isinstance_vList (xs : List PyVal) (t : PyType) :
    isinstance (.vList xs) t = false := by
  cases t <;> rfl

/-- A scalar of the expected type broadcasts to `N` copies of itself. -/
theorem convert2sequence_scalar {v : PyVal} {t : PyType} (h : isinstance v t = true)
    (N : ℕ) (name : String) :
    convert2sequence v N name t = .ok (List.replicate N v) := by
  simp [convert2sequence, h]

/-- A sequence of exactly `N` elements of the expected type is returned
unchanged. -/
theorem convert2sequence_seq {es : List PyVal} {t : PyType} {N : ℕ} (name : String)
    (hlen : es.length = N) (hall : es.all (fun e => isinstance e t) = true) :
    convert2sequence (.vList es) N name t = .ok es := by
  simp [convert2sequence, seqElems, hlen, hall]

/-- A sequence whose length is not `N` is rejected with the length error. -/
theorem convert2sequence_wrong_length {es : List PyVal} {N : ℕ} (name : String)
    (t : PyType) (hlen : es.length ≠ N) :
    convert2sequence (.vList es) N name t =
      .error (.valueErrorLength name N es.length) := by
  simp [convert2sequence, seqElems, hlen]

/-- Replicating a scalar of the expected type `N` times gives a sequence
that normalizes to the same list the scalar broadcasts to. -/
theorem convert2sequence_replicate {v : PyVal} {t : PyType} (h : isinstance v t = true)
    (N : ℕ) (name : String) :
    convert2sequence (.vList (List.replicate N v)) N name t =
      .ok (List.replicate N v) := by
  refine convert2sequence_seq name (by simp) ?_
  simp only [List.all_eq_true]
  intro e he
  rw [List.eq_of_mem_replicate he]
  exact h

/-- Whatever `convert2sequence` accepts has length exactly `N`. -/
theorem convert2sequence_ok_length {v : PyVal} {N : ℕ} {name : String} {t : PyType}
    {l : List PyVal} (h : convert2sequence v N name t = .ok l) : l.length = N := by
  unfold convert2sequence at h
  split at h
  · injection h with h
    subst h
    simp
  · split at h
    next elems _ =>
      split at h
      next hlen =>
        split at h
        · injection h with h
          subst h
          exact hlen
        · exact Except.noConfusion h
      next => exact Except.noConfusion h
    next => exact Except.noConfusion h

/-- Every element `convert2sequence` accepts is an instance of the checked
type. -/
theorem convert2sequence_ok_isinstance {v : PyVal} {N : ℕ} {name : String} {t : PyType}
    {l : List PyVal} (h : convert2sequence v N name t = .ok l) :
    ∀ e ∈ l, isinstance e t = true := by
  unfold convert2sequence at h
  split at h
  next hv =>
    injection h with h
    subst h
    intro e he
    rw [List.eq_of_mem_replicate he]
    exact hv
  · split at h
    next elems _ =>
      split at h
      · split at h
        next hall =>
          injection h with h
          subst h
          exact fun e he => by
            have := List.all_eq_true.mp hall e he
            simpa using this
        · exact Except.noConfusion h
      · exact Except.noConfusion h
    next => exact Except.noConfusion h

/-- Claim C4: constructing the renderer with a valid triple produces a
bound subplot handle and an empty tick registry (`current_positions` and
`current_ticklabels` both empty); any other argument makes the constructor
fail with the `InvalidArgument` error. -/
theorem init_validates_triple (loc : List PyVal) :
    (validTriple loc = true → ∃ obj, CustomBoxPlot.init loc = .ok obj ∧
        obj.current_positions = [] ∧ obj.current_ticklabels = []) ∧
    (validTriple loc = false →
        CustomBoxPlot.init loc = .error (.typeError "ax_location")) := by
  constructor
  · intro h
    unfold validTriple at h
    split at h
    next r c i =>
      refine ⟨⟨⟨r, c, i⟩, [], []⟩, ?_, rfl, rfl⟩
      have hrci : 0 < r ∧ 0 < c ∧ 0 < i := by
        simpa [and_assoc] using h
      simp [CustomBoxPlot.init, addSubplot, hrci]
    next => exact absurd h (by simp)
  · intro h
    unfold validTriple at h
    have haddsub : addSubplot loc = .error (.typeError "ax_location") := by
      split at h
      next r c i =>
        have hrci : ¬(0 < r ∧ 0 < c ∧ 0 < i) := by
          simpa [and_assoc] using h
        simp [addSubplot, hrci]
      next hne =>
        unfold addSubplot
        split
        next r c i => exact absurd rfl (hne r c i)
        next => rfl
    simp [CustomBoxPlot.init, haddsub]

/-- Witness for C4: the demo triple `(1,1,1)` constructs with empty
registries, and a non-positive entry is rejected. -/
theorem init_validates_triple_witness :
    (∃ obj, CustomBoxPlot.init [.vInt 1, .vInt 1, .vInt 1] = .ok obj ∧
        obj.current_positions = [] ∧ obj.current_ticklabels = []) ∧
    CustomBoxPlot.init [.vInt 0, .vInt 1, .vInt 1] =
      .error (.typeError "ax_location") :=
  ⟨(init_validates_triple _).1 (by decide), (init_validates_triple _).2 (by decide)⟩

/-- With eight scalars of the expected types, normalization broadcasts each
to `N` copies. -/
theorem convertAll_scalar {p l bc ac lw dw da pa : PyVal} (N : ℕ)
    (h1 : isinstance p .int = true) (h2 : isinstance l .str = true)
    (h3 : isinstance bc .str = true) (h4 : isinstance ac .str = true)
    (h5 : isinstance lw .int = true) (h6 : isinstance dw .bool = true)
    (h7 : isinstance da .bool = true) (h8 : isinstance pa .bool = true) :
    convertAll p l bc ac lw dw da pa N =
      .ok ⟨List.replicate N p, List.replicate N l, List.replicate N bc,
           List.replicate N ac, List.replicate N lw, List.replicate N dw,
           List.replicate N da, List.replicate N pa⟩ := by
  simp only [convertAll, convert2sequence_scalar h1, convert2sequence_scalar h2,
    convert2sequence_scalar h3, convert2sequence_scalar h4, convert2sequence_scalar h5,
    convert2sequence_scalar h6, convert2sequence_scalar h7, convert2sequence_scalar h8]

/-- With each scalar replicated `N` times as an explicit sequence,
normalization returns the same eight lists as the scalar broadcast. -/
theorem convertAll_replicate {p l bc ac lw dw da pa : PyVal} (N : ℕ)
    (h1 : isinstance p .int = true) (h2 : isinstance l .str = true)
    (h3 : isinstance bc .str = true) (h4 : isinstance ac .str = true)
    (h5 : isinstance lw .int = true) (h6 : isinstance dw .bool = true)
    (h7 : isinstance da .bool = true) (h8 : isinstance pa .bool = true) :
    convertAll (.vList (List.replicate N p)) (.vList (List.replicate N l))
      (.vList (List.replicate N bc)) (.vList (List.replicate N ac))
      (.vList (List.replicate N lw)) (.vList (List.replicate N dw))
      (.vList (List.replicate N da)) (.vList (List.replicate N pa)) N =
      .ok ⟨List.replicate N p, List.replicate N l, List.replicate N bc,
           List.replicate N ac, List.replicate N lw, List.replicate N dw,
           List.replicate N da, List.replicate N pa⟩ := by
  simp only [convertAll, convert2sequence_replicate h1, convert2sequence_replicate h2,
    convert2sequence_replicate h3, convert2sequence_replicate h4,
    convert2sequence_replicate h5, convert2sequence_replicate h6,
    convert2sequence_replicate h7, convert2sequence_replicate h8]

/-- Claim C7 (amended): for every array and every choice of the eight
parameters as scalars of their expected types, `add_boxplot` behaves
identically (same drawing calls, same final registry, same error) to the
call where every scalar is replaced by the explicit sequence replicating it
`data.shape[0]` times — the broadcast width the code actually uses (the row
count for a 2-D array, the element count for a 1-D array). -/
theorem scalar_equals_replicated_sequence
    (stats : NumpyStats) (self : CustomBoxPlot) (a : NDArray) (N : ℕ)
    (hN : a.shape0 = .ok N) (p l bc ac lw dw da pa : PyVal)
    (h1 : isinstance p .int = true) (h2 : isinstance l .str = true)
    (h3 : isinstance bc .str = true) (h4 : isinstance ac .str = true)
    (h5 : isinstance lw .int = true) (h6 : isinstance dw .bool = true)
    (h7 : isinstance da .bool = true) (h8 : isinstance pa .bool = true) :
    CustomBoxPlot.add_boxplot stats self (.array a) p l bc ac lw dw da pa =
      CustomBoxPlot.add_boxplot stats self (.array a)
        (.vList (List.replicate N p)) (.vList (List.replicate N l))
        (.vList (List.replicate N bc)) (.vList (List.replicate N ac))
        (.vList (List.replicate N lw)) (.vList (List.replicate N dw))
        (.vList (List.replicate N da)) (.vList (List.replicate N pa)) := by
  cases l with
  | vStr s =>
    unfold CustomBoxPlot.add_boxplot
    simp only [labelDefault]
    split
    · rfl
    · rw [hN]
      simp only [convertAll_scalar N h1 h2 h3 h4 h5 h6 h7 h8,
        convertAll_replicate N h1 h2 h3 h4 h5 h6 h7 h8]
  | vInt n => exact absurd h2 (by simp [isinstance])
  | vBool b => exact absurd h2 (by simp [isinstance])
  | vList xs => exact absurd h2 (by simp [isinstance])
  | vNone => exact absurd h2 (by simp [isinstance])

/-- Witness for the amended C7 on the 1-D array `[1, 2]` (`shape[0] = 2`)
with the default styles. -/
theorem scalar_equals_replicated_sequence_witness :
    CustomBoxPlot.add_boxplot statsZero emptyPlot (.array (.d1 [1, 2]))
      (.vInt 5) (.vStr "x") (.vStr "black") (.vStr "red") (.vInt 2)
      (.vBool true) (.vBool true) (.vBool false) =
    CustomBoxPlot.add_boxplot statsZero emptyPlot (.array (.d1 [1, 2]))
      (.vList [.vInt 5, .vInt 5]) (.vList [.vStr "x", .vStr "x"])
      (.vList [.vStr "black", .vStr "black"]) (.vList [.vStr "red", .vStr "red"])
      (.vList [.vInt 2, .vInt 2]) (.vList [.vBool true, .vBool true])
      (.vList [.vBool true, .vBool true]) (.vList [.vBool false, .vBool false]) :=
  scalar_equals_replicated_sequence statsZero emptyPlot (.d1 [1, 2]) 2 rfl
    (.vInt 5) (.vStr "x") (.vStr "black") (.vStr "red") (.vInt 2)
    (.vBool true) (.vBool true) (.vBool false)
    rfl rfl rfl rfl rfl rfl rfl rfl

/-! ### Characterization of the single-series drawing path -/

/-- Full evaluation of the single-series drawing logic when every
normalized parameter list is non-empty: the rectangle, the optional
whisker, average and text calls, and the tick-registry update. -/
theorem leafDraw_cons (stats : NumpyStats) (self : CustomBoxPlot) (xs : List ℚ)
    (p0 l0 bc0 ac0 lw0 dw0 da0 pa0 : PyVal)
    (ps ls bcs acs lws dws das pas : List PyVal) :
    CustomBoxPlot.leafDraw stats self xs (p0 :: ps) (l0 :: ls) (bc0 :: bcs)
      (ac0 :: acs) (lw0 :: lws) (dw0 :: dws) (da0 :: das) (pa0 :: pas) =
      ⟨if pyInt p0 ∈ self.current_positions then self
        else { self with
               current_positions := self.current_positions ++ [pyInt p0],
               current_ticklabels := self.current_ticklabels ++ [pyStr l0] },
       DrawCall.addPatchRect ((pyInt p0 : ℚ) - 0.1)
           (stats.nanmean xs - stats.nanstd xs) 0.2
           ((stats.nanmean xs + stats.nanstd xs) - (stats.nanmean xs - stats.nanstd xs))
           false (pyStr bc0) (pyInt lw0)
         :: ((if pyBool dw0 then
                [DrawCall.plot [(pyInt p0 : ℚ), (pyInt p0 : ℚ)]
                   [stats.nanmin xs, stats.nanmean xs - stats.nanstd xs] (pyStr bc0) (pyInt lw0),
                 DrawCall.plot [(pyInt p0 : ℚ), (pyInt p0 : ℚ)]
                   [stats.nanmean xs + stats.nanstd xs, stats.nanmax xs] (pyStr bc0) (pyInt lw0),
                 DrawCall.plot [(pyInt p0 : ℚ) - 0.1, (pyInt p0 : ℚ) + 0.1]
                   [stats.nanmin xs, stats.nanmin xs] (pyStr bc0) (pyInt lw0),
                 DrawCall.plot [(pyInt p0 : ℚ) - 0.1, (pyInt p0 : ℚ) + 0.1]
                   [stats.nanmax xs, stats.nanmax xs] (pyStr bc0) (pyInt lw0)]
              else []) ++
             ((if pyBool da0 then
                 [DrawCall.plot [(pyInt p0 : ℚ) - 0.1, (pyInt p0 : ℚ) + 0.1]
                    [stats.nanmean xs, stats.nanmean xs] (pyStr ac0) (pyInt lw0)]
               else []) ++
              ((if pyBool pa0 then
                  [DrawCall.text ((pyInt p0 : ℚ) + 0.2) (stats.nanmean xs)
                     (stats.nanmean xs) (pyStr ac0)]
                else []) ++
               (if pyInt p0 ∈ self.current_positions then []
                else
                  [DrawCall.setXticks
                     ((sortPairs ((self.current_positions ++ [pyInt p0]).zip
                        (self.current_ticklabels ++ [pyStr l0]))).map Prod.fst),
                   DrawCall.setXticklabels
                     ((sortPairs ((self.current_positions ++ [pyInt p0]).zip
                        (self.current_ticklabels ++ [pyStr l0]))).map Prod.snd)]))))
         , none⟩ := by
  unfold CustomBoxPlot.leafDraw
  simp only [List.head?_cons]
  cases hdw : pyBool dw0 <;> cases hda : pyBool da0 <;> cases hpa : pyBool pa0 <;>
    by_cases hmem : pyInt p0 ∈ self.current_positions <;>
      simp [hmem, List.append_assoc]

/-- The state after the single-series drawing path, when the parameter
lists all have the same length (as `convertAll` guarantees): the registry
is unchanged, or exactly one fresh position/label pair is appended. -/
theorem leafDraw_state (stats : NumpyStats) (self : CustomBoxPlot) (xs : List ℚ)
    (position label box_color average_color linewidth
     draw_whiskers draw_average print_average : List PyVal)
    (h2 : label.length = position.length) (h3 : box_color.length = position.length)
    (h4 : average_color.length = position.length) (h5 : linewidth.length = position.length)
    (h6 : draw_whiskers.length = position.length) (h7 : draw_average.length = position.length)
    (h8 : print_average.length = position.length) :
    (CustomBoxPlot.leafDraw stats self xs position label box_color average_color
      linewidth draw_whiskers draw_average print_average).state = self ∨
    ∃ pz lb, pz ∉ self.current_positions ∧
      (CustomBoxPlot.leafDraw stats self xs position label box_color average_color
        linewidth draw_whiskers draw_average print_average).state =
        { self with current_positions := self.current_positions ++ [pz],
                    current_ticklabels := self.current_ticklabels ++ [lb] } := by
  cases position with
  | nil =>
    left
    cases label with
    | nil => rfl
    | cons l0 ls => simp at h2
  | cons p0 ps =>
    cases label with
    | nil => simp at h2
    | cons l0 ls =>
    cases box_color with
    | nil => simp at h3
    | cons bc0 bcs =>
    cases average_color with
    | nil => simp at h4
    | cons ac0 acs =>
    cases linewidth with
    | nil => simp at h5
    | cons lw0 lws =>
    cases draw_whiskers with
    | nil => simp at h6
    | cons dw0 dws =>
    cases draw_average with
    | nil => simp at h7
    | cons da0 das =>
    cases print_average with
    | nil => simp at h8
    | cons pa0 pas =>
      rw [leafDraw_cons]
      by_cases hmem : pyInt p0 ∈ self.current_positions
      · left
        simp [hmem]
      · right
        exact ⟨pyInt p0, pyStr l0, hmem, by simp [hmem]⟩

/-- The single-series drawing path preserves the registry invariant. -/
theorem leafDraw_registryInv (stats : NumpyStats) (self : CustomBoxPlot) (xs : List ℚ)
    (position label box_color average_color linewidth
     draw_whiskers draw_average print_average : List PyVal)
    (h2 : label.length = position.length) (h3 : box_color.length = position.length)
    (h4 : average_color.length = position.length) (h5 : linewidth.length = position.length)
    (h6 : draw_whiskers.length = position.length) (h7 : draw_average.length = position.length)
    (h8 : print_average.length = position.length) (hInv : registryInv self) :
    registryInv (CustomBoxPlot.leafDraw stats self xs position label box_color
      average_color linewidth draw_whiskers draw_average print_average).state := by
  rcases leafDraw_state stats self xs position label box_color average_color linewidth
      draw_whiskers draw_average print_average h2 h3 h4 h5 h6 h7 h8 with
    h | ⟨pz, lb, hmem, h⟩
  · rw [h]
    exact hInv
  · rw [h]
    refine ⟨by simp [hInv.1], ?_⟩
    simp only [List.nodup_append]
    exact ⟨hInv.2, List.nodup_singleton pz, by simpa using hmem⟩

/-- Each of the eight lists `convertAll` accepts has length `N`. -/
theorem convertAll_ok_lengths {position label box_color average_color linewidth
    draw_whiskers draw_average print_average : PyVal} {N : ℕ} {ps : ParamSeqs}
    (h : convertAll position label box_color average_color linewidth
      draw_whiskers draw_average print_average N = .ok ps) :
    ps.position.length = N ∧ ps.label.length = N ∧ ps.box_color.length = N ∧
      ps.average_color.length = N ∧ ps.linewidth.length = N ∧
      ps.draw_whiskers.length = N ∧ ps.draw_average.length = N ∧
      ps.print_average.length = N := by
  unfold convertAll at h
  split at h
  · exact Except.noConfusion h
  next e1 =>
  split at h
  · exact Except.noConfusion h
  next e2 =>
  split at h
  · exact Except.noConfusion h
  next e3 =>
  split at h
  · exact Except.noConfusion h
  next e4 =>
  split at h
  · exact Except.noConfusion h
  next e5 =>
  split at h
  · exact Except.noConfusion h
  next e6 =>
  split at h
  · exact Except.noConfusion h
  next e7 =>
  split at h
  · exact Except.noConfusion h
  next e8 =>
  injection h with h
  subst h
  exact ⟨convert2sequence_ok_length e1, convert2sequence_ok_length e2,
    convert2sequence_ok_length e3, convert2sequence_ok_length e4,
    convert2sequence_ok_length e5, convert2sequence_ok_length e6,
    convert2sequence_ok_length e7, convert2sequence_ok_length e8⟩

/-- Full evaluation of `add_boxplot` on a non-empty 1-D array with all
eight parameters given as scalars of their expected types. -/
theorem add_boxplot_d1_scalar_eq (stats : NumpyStats) (self : CustomBoxPlot)
    (x : ℚ) (xs : List ℚ) (p : ℤ) (l bc ac : String) (lw : ℤ) (dw da pa : Bool) :
    CustomBoxPlot.add_boxplot stats self (.array (.d1 (x :: xs))) (.vInt p) (.vStr l)
      (.vStr bc) (.vStr ac) (.vInt lw) (.vBool dw) (.vBool da) (.vBool pa) =
      ⟨if p ∈ self.current_positions then self
        else { self with
               current_positions := self.current_positions ++ [p],
               current_ticklabels := self.current_ticklabels ++ [l] },
       DrawCall.addPatchRect ((p : ℚ) - 0.1)
           (stats.nanmean (x :: xs) - stats.nanstd (x :: xs)) 0.2
           ((stats.nanmean (x :: xs) + stats.nanstd (x :: xs)) -
             (stats.nanmean (x :: xs) - stats.nanstd (x :: xs)))
           false bc lw
         :: ((if dw then
                [DrawCall.plot [(p : ℚ), (p : ℚ)]
                   [stats.nanmin (x :: xs), stats.nanmean (x :: xs) - stats.nanstd (x :: xs)] bc lw,
                 DrawCall.plot [(p : ℚ), (p : ℚ)]
                   [stats.nanmean (x :: xs) + stats.nanstd (x :: xs), stats.nanmax (x :: xs)] bc lw,
                 DrawCall.plot [(p : ℚ) - 0.1, (p : ℚ) + 0.1]
                   [stats.nanmin (x :: xs), stats.nanmin (x :: xs)] bc lw,
                 DrawCall.plot [(p : ℚ) - 0.1, (p : ℚ) + 0.1]
                   [stats.nanmax (x :: xs), stats.nanmax (x :: xs)] bc lw]
              else []) ++
             ((if da then
                 [DrawCall.plot [(p : ℚ) - 0.1, (p : ℚ) + 0.1]
                    [stats.nanmean (x :: xs), stats.nanmean (x :: xs)] ac lw]
               else []) ++
              ((if pa then
                  [DrawCall.text ((p : ℚ) + 0.2) (stats.nanmean (x :: xs))
                     (stats.nanmean (x :: xs)) ac]
                else []) ++
               (if p ∈ self.current_positions then []
                else
                  [DrawCall.setXticks
                     ((sortPairs ((self.current_positions ++ [p]).zip
                        (self.current_ticklabels ++ [l]))).map Prod.fst),
                   DrawCall.setXticklabels
                     ((sortPairs ((self.current_positions ++ [p]).zip
                        (self.current_ticklabels ++ [l]))).map Prod.snd)]))))
         , none⟩ := by
  have hconv := @convertAll_scalar (.vInt p) (.vStr l) (.vStr bc) (.vStr ac)
    (.vInt lw) (.vBool dw) (.vBool da) (.vBool pa) (x :: xs).length
    rfl rfl rfl rfl rfl rfl rfl rfl
  simp only [CustomBoxPlot.add_boxplot, labelDefault, NDArray.ndim, NDArray.shape0]
  rw [hconv]
  simp only [List.length_cons, List.replicate_succ, leafDraw_cons, pyInt, pyStr, pyBool]
  norm_num

/-- Claim C8: on a successful single-series call, the unfilled rectangle
spanning `x ∈ [position - 0.1, position + 0.1]`, `y ∈ [mean - std,
mean + std]` with `box_color` and `linewidth` is always drawn first (not
gated by any flag), and exactly the four whisker segments — the two
verticals `(position, min)–(position, mean - std)` and
`(position, mean + std)–(position, max)` and the two horizontal caps at
`y = min` and `y = max` over the same x-range, all with `box_color` and
`linewidth` — are additionally drawn iff `draw_whiskers` is true; the only
further calls are the flag-gated average segment and text and the tick
pushes. -/
theorem add_boxplot_box_and_whiskers (stats : NumpyStats) (self : CustomBoxPlot)
    (x : ℚ) (xs : List ℚ) (p : ℤ) (l bc ac : String) (lw : ℤ) (dw da pa : Bool) :
    CustomBoxPlot.add_boxplot stats self (.array (.d1 (x :: xs))) (.vInt p) (.vStr l)
      (.vStr bc) (.vStr ac) (.vInt lw) (.vBool dw) (.vBool da) (.vBool pa) =
      ⟨if p ∈ self.current_positions then self
        else { self with
               current_positions := self.current_positions ++ [p],
               current_ticklabels := self.current_ticklabels ++ [l] },
       DrawCall.addPatchRect ((p : ℚ) - 0.1)
           (stats.nanmean (x :: xs) - stats.nanstd (x :: xs)) 0.2
           ((stats.nanmean (x :: xs) + stats.nanstd (x :: xs)) -
             (stats.nanmean (x :: xs) - stats.nanstd (x :: xs)))
           false bc lw
         :: ((if dw then
                [DrawCall.plot [(p : ℚ), (p : ℚ)]
                   [stats.nanmin (x :: xs), stats.nanmean (x :: xs) - stats.nanstd (x :: xs)] bc lw,
                 DrawCall.plot [(p : ℚ), (p : ℚ)]
                   [stats.nanmean (x :: xs) + stats.nanstd (x :: xs), stats.nanmax (x :: xs)] bc lw,
                 DrawCall.plot [(p : ℚ) - 0.1, (p : ℚ) + 0.1]
                   [stats.nanmin (x :: xs), stats.nanmin (x :: xs)] bc lw,
                 DrawCall.plot [(p : ℚ) - 0.1, (p : ℚ) + 0.1]
                   [stats.nanmax (x :: xs), stats.nanmax (x :: xs)] bc lw]
              else []) ++
             ((if da then
                 [DrawCall.plot [(p : ℚ) - 0.1, (p : ℚ) + 0.1]
                    [stats.nanmean (x :: xs), stats.nanmean (x :: xs)] ac lw]
               else []) ++
              ((if pa then
                  [DrawCall.text ((p : ℚ) + 0.2) (stats.nanmean (x :: xs))
                     (stats.nanmean (x :: xs)) ac]
                else []) ++
               (if p ∈ self.current_positions then []
                else
                  [DrawCall.setXticks
                     ((sortPairs ((self.current_positions ++ [p]).zip
                        (self.current_ticklabels ++ [l]))).map Prod.fst),
                   DrawCall.setXticklabels
                     ((sortPairs ((self.current_positions ++ [p]).zip
                        (self.current_ticklabels ++ [l]))).map Prod.snd)]))))
         , none⟩ :=
  add_boxplot_d1_scalar_eq stats self x xs p l bc ac lw dw da pa

/-- The helper `add_boxplot1` (one loop iteration of the 2-D dispatch, i.e. the
recursive call on a row) preserves the registry invariant. -/
theorem add_boxplot1_registryInv (stats : NumpyStats) (self : CustomBoxPlot)
    (row : List ℚ) (position label box_color average_color linewidth
     draw_whiskers draw_average print_average : PyVal) (hInv : registryInv self) :
    registryInv (CustomBoxPlot.add_boxplot1 stats self row position label box_color
      average_color linewidth draw_whiskers draw_average print_average).state := by
  unfold CustomBoxPlot.add_boxplot1
  cases hc : convertAll position (labelDefault position label) box_color average_color
      linewidth draw_whiskers draw_average print_average row.length with
  | error e => exact hInv
  | ok ps =>
    obtain ⟨n1, n2, n3, n4, n5, n6, n7, n8⟩ := convertAll_ok_lengths hc
    exact leafDraw_registryInv stats self row ps.position ps.label ps.box_color
      ps.average_color ps.linewidth ps.draw_whiskers ps.draw_average ps.print_average
      (n2.trans n1.symm) (n3.trans n1.symm) (n4.trans n1.symm) (n5.trans n1.symm)
      (n6.trans n1.symm) (n7.trans n1.symm) (n8.trans n1.symm) hInv

/-- The 2-D dispatch loop preserves the registry invariant. -/
theorem runRows_registryInv (stats : NumpyStats) (items : List SeriesArgs) :
    ∀ self : CustomBoxPlot, registryInv self →
      registryInv (CustomBoxPlot.runRows stats self items).state := by
  induction items with
  | nil => exact fun self h => h
  | cons item rest ih =>
    intro self h
    have h1 := add_boxplot1_registryInv stats self item.row item.position item.label
      item.box_color item.average_color item.linewidth item.draw_whiskers
      item.draw_average item.print_average h
    unfold CustomBoxPlot.runRows
    cases ho : CustomBoxPlot.add_boxplot1 stats self item.row item.position item.label
        item.box_color item.average_color item.linewidth item.draw_whiskers
        item.draw_average item.print_average with
    | mk st1 calls1 err1 =>
      rw [ho] at h1
      cases err1 with
      | some e => exact h1
      | none =>
        have h2 := ih st1 h1
        show registryInv (match CustomBoxPlot.runRows stats st1 rest with
          | ⟨st2, calls2, err2⟩ => (⟨st2, calls1 ++ calls2, err2⟩ : Outcome)).state
        cases h3 : CustomBoxPlot.runRows stats st1 rest with
        | mk st2 calls2 err2 =>
          rw [h3] at h2
          exact h2

/-- Method `add_boxplot` preserves the registry invariant, whatever the arguments
and wherever the call stopped. -/
theorem add_boxplot_registryInv (stats : NumpyStats) (self : CustomBoxPlot)
    (data : DataArg) (position label box_color average_color linewidth
     draw_whiskers draw_average print_average : PyVal) (hInv : registryInv self) :
    registryInv (CustomBoxPlot.add_boxplot stats self data position label box_color
      average_color linewidth draw_whiskers draw_average print_average).state := by
  unfold CustomBoxPlot.add_boxplot
  cases data with
  | notArray v => exact hInv
  | array a =>
    by_cases hdim : 3 ≤ a.ndim
    · simp only [if_pos hdim]
      exact hInv
    · simp only [if_neg hdim]
      cases a with
      | d0 x =>
        simp only [NDArray.shape0]
        exact hInv
      | dN n =>
        simp only [NDArray.shape0]
        cases hc : convertAll position (labelDefault position label) box_color
            average_color linewidth draw_whiskers draw_average print_average 0 with
        | error e => exact hInv
        | ok ps => exact hInv
      | d1 xs =>
        simp only [NDArray.shape0]
        cases hc : convertAll position (labelDefault position label) box_color
            average_color linewidth draw_whiskers draw_average print_average xs.length with
        | error e => exact hInv
        | ok ps =>
          obtain ⟨n1, n2, n3, n4, n5, n6, n7, n8⟩ := convertAll_ok_lengths hc
          exact leafDraw_registryInv stats self xs ps.position ps.label ps.box_color
            ps.average_color ps.linewidth ps.draw_whiskers ps.draw_average
            ps.print_average (n2.trans n1.symm) (n3.trans n1.symm) (n4.trans n1.symm)
            (n5.trans n1.symm) (n6.trans n1.symm) (n7.trans n1.symm)
            (n8.trans n1.symm) hInv
      | d2 rows =>
        simp only [NDArray.shape0]
        cases hc : convertAll position (labelDefault position label) box_color
            average_color linewidth draw_whiskers draw_average print_average rows.length with
        | error e => exact hInv
        | ok ps =>
          exact runRows_registryInv stats _ self hInv

/-- Claim C5: from any state satisfying the registry invariant, (a) after
every `add_boxplot` call the invariant still holds — parallel lengths and
unique positions; and (b) two successive successful single-series calls at
the same `position` (with possibly different labels, data and styles) leave
exactly one registry entry for that position, the second call not modifying
the registry at all, so the first-seen label is retained. -/
theorem add_boxplot_registry_idempotent (stats : NumpyStats) (self : CustomBoxPlot)
    (hInv : registryInv self) :
    (∀ (data : DataArg) (position label box_color average_color linewidth
        draw_whiskers draw_average print_average : PyVal),
       registryInv (CustomBoxPlot.add_boxplot stats self data position label box_color
         average_color linewidth draw_whiskers draw_average print_average).state) ∧
    (∀ (x x2 : ℚ) (xs xs2 : List ℚ) (p : ℤ) (l1 l2 bc ac bc2 ac2 : String)
       (lw lw2 : ℤ) (dw da pa dw2 da2 pa2 : Bool),
       ((CustomBoxPlot.add_boxplot stats self (.array (.d1 (x :: xs))) (.vInt p)
           (.vStr l1) (.vStr bc) (.vStr ac) (.vInt lw) (.vBool dw) (.vBool da)
           (.vBool pa)).state.current_positions.count p = 1) ∧
       (CustomBoxPlot.add_boxplot stats
           (CustomBoxPlot.add_boxplot stats self (.array (.d1 (x :: xs))) (.vInt p)
             (.vStr l1) (.vStr bc) (.vStr ac) (.vInt lw) (.vBool dw) (.vBool da)
             (.vBool pa)).state
           (.array (.d1 (x2 :: xs2))) (.vInt p) (.vStr l2) (.vStr bc2) (.vStr ac2)
           (.vInt lw2) (.vBool dw2) (.vBool da2) (.vBool pa2)).state =
         (CustomBoxPlot.add_boxplot stats self (.array (.d1 (x :: xs))) (.vInt p)
           (.vStr l1) (.vStr bc) (.vStr ac) (.vInt lw) (.vBool dw) (.vBool da)
           (.vBool pa)).state) := by
  refine ⟨fun data pos lab bc ac lw dw da pa =>
    add_boxplot_registryInv stats self data pos lab bc ac lw dw da pa hInv, ?_⟩
  intro x x2 xs xs2 p l1 l2 bc ac bc2 ac2 lw lw2 dw da pa dw2 da2 pa2
  rw [add_boxplot_d1_scalar_eq, add_boxplot_d1_scalar_eq]
  by_cases hmem : p ∈ self.current_positions
  · simp only [if_pos hmem]
    exact ⟨List.count_eq_one_of_mem hInv.2 hmem, by simp [hmem]⟩
  · simp only [if_neg hmem]
    constructor
    · simp [List.count_append, List.count_eq_zero_of_not_mem hmem]
    · simp

/-- Witness for C5 at the fresh renderer: one call at position 3 registers
it once; repeating position 3 with another label leaves the registry
unchanged. -/
theorem add_boxplot_registry_idempotent_witness :
    ((CustomBoxPlot.add_boxplot statsZero emptyPlot (.array (.d1 [7])) (.vInt 3)
        (.vStr "a") (.vStr "black") (.vStr "red") (.vInt 2) (.vBool true)
        (.vBool true) (.vBool false)).state.current_positions.count 3 = 1) ∧
    (CustomBoxPlot.add_boxplot statsZero
        (CustomBoxPlot.add_boxplot statsZero emptyPlot (.array (.d1 [7])) (.vInt 3)
          (.vStr "a") (.vStr "black") (.vStr "red") (.vInt 2) (.vBool true)
          (.vBool true) (.vBool false)).state
        (.array (.d1 [8])) (.vInt 3) (.vStr "b") (.vStr "blue") (.vStr "green")
        (.vInt 1) (.vBool false) (.vBool false) (.vBool true)).state =
      (CustomBoxPlot.add_boxplot statsZero emptyPlot (.array (.d1 [7])) (.vInt 3)
        (.vStr "a") (.vStr "black") (.vStr "red") (.vInt 2) (.vBool true)
        (.vBool true) (.vBool false)).state :=
  (add_boxplot_registry_idempotent statsZero emptyPlot ⟨rfl, List.nodup_nil⟩).2
    7 8 [] [] 3 "a" "b" "black" "red" "blue" "green" 2 1 true true false
    false false true

/-- Zipping the two projections of a list of pairs gives the list back. -/
theorem zip_map_fst_snd_self (l : List (ℤ × String)) :
    (l.map Prod.fst).zip (l.map Prod.snd) = l := by
  induction l with
  | nil => rfl
  | cons a t ih => simp [ih]

/-- Claim C6: whenever a single-series call grows the tick registry (its
position is not yet registered), the drawing trace ends with the pair
`set_xticks ts; set_xticklabels ls` pushing the full sorted registry: `ts`
is strictly ascending, and zipping `ts` with `ls` is a permutation of the
grown registry pairs, so every label stays aligned with its position. -/
theorem add_boxplot_pushes_sorted_ticks (stats : NumpyStats) (self : CustomBoxPlot)
    (hInv : registryInv self) (x : ℚ) (xs : List ℚ) (p : ℤ) (l bc ac : String)
    (lw : ℤ) (dw da pa : Bool) (hnew : p ∉ self.current_positions) :
    ((CustomBoxPlot.add_boxplot stats self (.array (.d1 (x :: xs))) (.vInt p) (.vStr l)
        (.vStr bc) (.vStr ac) (.vInt lw) (.vBool dw) (.vBool da) (.vBool pa)).calls =
      (DrawCall.addPatchRect ((p : ℚ) - 0.1)
           (stats.nanmean (x :: xs) - stats.nanstd (x :: xs)) 0.2
           ((stats.nanmean (x :: xs) + stats.nanstd (x :: xs)) -
             (stats.nanmean (x :: xs) - stats.nanstd (x :: xs)))
           false bc lw
         :: ((if dw then
                [DrawCall.plot [(p : ℚ), (p : ℚ)]
                   [stats.nanmin (x :: xs), stats.nanmean (x :: xs) - stats.nanstd (x :: xs)] bc lw,
                 DrawCall.plot [(p : ℚ), (p : ℚ)]
                   [stats.nanmean (x :: xs) + stats.nanstd (x :: xs), stats.nanmax (x :: xs)] bc lw,
                 DrawCall.plot [(p : ℚ) - 0.1, (p : ℚ) + 0.1]
                   [stats.nanmin (x :: xs), stats.nanmin (x :: xs)] bc lw,
                 DrawCall.plot [(p : ℚ) - 0.1, (p : ℚ) + 0.1]
                   [stats.nanmax (x :: xs), stats.nanmax (x :: xs)] bc lw]
              else []) ++
             ((if da then
                 [DrawCall.plot [(p : ℚ) - 0.1, (p : ℚ) + 0.1]
                    [stats.nanmean (x :: xs), stats.nanmean (x :: xs)] ac lw]
               else []) ++
              (if pa then
                 [DrawCall.text ((p : ℚ) + 0.2) (stats.nanmean (x :: xs))
                    (stats.nanmean (x :: xs)) ac]
               else [])))) ++
        [DrawCall.setXticks
           ((sortPairs ((self.current_positions ++ [p]).zip
              (self.current_ticklabels ++ [l]))).map Prod.fst),
         DrawCall.setXticklabels
           ((sortPairs ((self.current_positions ++ [p]).zip
              (self.current_ticklabels ++ [l]))).map Prod.snd)]) ∧
    List.Chain' (· < ·)
      ((sortPairs ((self.current_positions ++ [p]).zip
         (self.current_ticklabels ++ [l]))).map Prod.fst) ∧
    (((sortPairs ((self.current_positions ++ [p]).zip
         (self.current_ticklabels ++ [l]))).map Prod.fst).zip
       ((sortPairs ((self.current_positions ++ [p]).zip
         (self.current_ticklabels ++ [l]))).map Prod.snd)).Perm
      ((self.current_positions ++ [p]).zip (self.current_ticklabels ++ [l])) := by
  have hsorted : List.Sorted posLe
      (sortPairs ((self.current_positions ++ [p]).zip (self.current_ticklabels ++ [l]))) :=
    List.sorted_insertionSort posLe _
  have hperm : (sortPairs ((self.current_positions ++ [p]).zip
      (self.current_ticklabels ++ [l]))).Perm
      ((self.current_positions ++ [p]).zip (self.current_ticklabels ++ [l])) :=
    List.perm_insertionSort posLe _
  have hfst : ((self.current_positions ++ [p]).zip
      (self.current_ticklabels ++ [l])).map Prod.fst = self.current_positions ++ [p] :=
    List.map_fst_zip _ _ (by simp [hInv.1])
  have hnodup : (self.current_positions ++ [p]).Nodup := by
    simp only [List.nodup_append]
    exact ⟨hInv.2, List.nodup_singleton p, by simpa using hnew⟩
  have hnodup2 : ((sortPairs ((self.current_positions ++ [p]).zip
      (self.current_ticklabels ++ [l]))).map Prod.fst).Nodup := by
    refine ((hperm.map Prod.fst).nodup_iff).mpr ?_
    rw [hfst]
    exact hnodup
  refine ⟨?_, ?_, ?_⟩
  · rw [add_boxplot_d1_scalar_eq]
    simp [hnew, List.append_assoc]
  · have hpw : List.Pairwise (· ≤ ·)
        ((sortPairs ((self.current_positions ++ [p]).zip
          (self.current_ticklabels ++ [l]))).map Prod.fst) :=
      List.pairwise_map.mpr hsorted
    exact ((hpw.and hnodup2).imp fun h => lt_of_le_of_ne h.1 h.2).chain'
  · rw [zip_map_fst_snd_self]
    exact hperm

/-- Witness for C6 at the spec's example: with positions 3 and 1 already
registered, a call at position 2 pushes tick locations `[1, 2, 3]` with the
labels realigned to `["b", "c", "a"]`. -/
theorem add_boxplot_pushes_sorted_ticks_witness :
    (CustomBoxPlot.add_boxplot statsZero tickPlot (.array (.d1 [0])) (.vInt 2)
        (.vStr "c") (.vStr "black") (.vStr "red") (.vInt 2) (.vBool false)
        (.vBool false) (.vBool false)).calls =
      [DrawCall.addPatchRect ((2 : ℚ) - 0.1) 0 0.2 0 false "black" 2,
       DrawCall.setXticks [1, 2, 3], DrawCall.setXticklabels ["b", "c", "a"]] := by
  have h := add_boxplot_pushes_sorted_ticks statsZero tickPlot
    ⟨rfl, by decide⟩ 0 [] 2 "c" "black" "red" 2 false false false (by decide)
  rw [h.1]
  norm_num [tickPlot, statsZero, sortPairs, posLe]

@[simp] theorem convert2sequence_vInt_int (n : ℤ) (N : ℕ) (name : String) :
    convert2sequence (.vInt n) N name .int = .ok (List.replicate N (.vInt n)) :=
  @convert2sequence_scalar (.vInt n) .int rfl N name

@[simp] theorem convert2sequence_vStr_str (s : String) (N : ℕ) (name : String) :
    convert2sequence (.vStr s) N name .str = .ok (List.replicate N (.vStr s)) :=
  @convert2sequence_scalar (.vStr s) .str rfl N name

@[simp] theorem convert2sequence_vBool_bool (b : Bool) (N : ℕ) (name : String) :
    convert2sequence (.vBool b) N name .bool = .ok (List.replicate N (.vBool b)) :=
  @convert2sequence_scalar (.vBool b) .bool rfl N name

theorem convert2sequence_intSeq (ns : List ℤ) (N : ℕ) (name : String) :
    convert2sequence (.vList (ns.map .vInt)) N name .int =
      if ns.length = N then .ok (ns.map .vInt)
      else .error (.valueErrorLength name N ns.length) := by
  by_cases h : ns.length = N
  · rw [if_pos h]
    refine convert2sequence_seq name (by simpa using h) ?_
    simp only [List.all_eq_true]
    intro e he
    obtain ⟨n, _, rfl⟩ := List.mem_map.mp he
    rfl
  · rw [if_neg h]
    have := @convert2sequence_wrong_length (ns.map PyVal.vInt) N name PyType.int
      (by simpa using h)
    simpa using this

theorem convert2sequence_strSeq (ss : List String) (N : ℕ) (name : String) :
    convert2sequence (.vList (ss.map .vStr)) N name .str =
      if ss.length = N then .ok (ss.map .vStr)
      else .error (.valueErrorLength name N ss.length) := by
  by_cases h : ss.length = N
  · rw [if_pos h]
    refine convert2sequence_seq name (by simpa using h) ?_
    simp only [List.all_eq_true]
    intro e he
    obtain ⟨s, _, rfl⟩ := List.mem_map.mp he
    rfl
  · rw [if_neg h]
    have := @convert2sequence_wrong_length (ss.map PyVal.vStr) N name PyType.str
      (by simpa using h)
    simpa using this

theorem convert2sequence_boolSeq (bs : List Bool) (N : ℕ) (name : String) :
    convert2sequence (.vList (bs.map .vBool)) N name .bool =
      if bs.length = N then .ok (bs.map .vBool)
      else .error (.valueErrorLength name N bs.length) := by
  by_cases h : bs.length = N
  · rw [if_pos h]
    refine convert2sequence_seq name (by simpa using h) ?_
    simp only [List.all_eq_true]
    intro e he
    obtain ⟨b, _, rfl⟩ := List.mem_map.mp he
    rfl
  · rw [if_neg h]
    have := @convert2sequence_wrong_length (bs.map PyVal.vBool) N name PyType.bool
      (by simpa using h)
    simpa using this

/-- Claim C2 (amended): for a non-empty 1-D data array, the broadcast
length the code enforces is `data.shape[0]` — the number of elements — not
the series count 1: every one of the eight parameters supplied as a typed
sequence of exactly that length is accepted (the call succeeds), and a
sequence of any other length fails with the `InvalidLength` error naming
that parameter, before any drawing call and leaving the registry
untouched. -/
theorem seq_params_broadcast_length (stats : NumpyStats) (self : CustomBoxPlot)
    (x : ℚ) (xs : List ℚ) :
    (∀ (p0 : ℤ) (ps : List ℤ) (l0 : String) (ls : List String)
       (bc0 : String) (bcs : List String) (ac0 : String) (acs : List String)
       (lw0 : ℤ) (lws : List ℤ) (dw0 : Bool) (dws : List Bool)
       (da0 : Bool) (das : List Bool) (pa0 : Bool) (pas : List Bool),
       (p0 :: ps).length = (x :: xs).length → (l0 :: ls).length = (x :: xs).length →
       (bc0 :: bcs).length = (x :: xs).length → (ac0 :: acs).length = (x :: xs).length →
       (lw0 :: lws).length = (x :: xs).length → (dw0 :: dws).length = (x :: xs).length →
       (da0 :: das).length = (x :: xs).length → (pa0 :: pas).length = (x :: xs).length →
       (CustomBoxPlot.add_boxplot stats self (.array (.d1 (x :: xs)))
          (.vList ((p0 :: ps).map .vInt)) (.vList ((l0 :: ls).map .vStr))
          (.vList ((bc0 :: bcs).map .vStr)) (.vList ((ac0 :: acs).map .vStr))
          (.vList ((lw0 :: lws).map .vInt)) (.vList ((dw0 :: dws).map .vBool))
          (.vList ((da0 :: das).map .vBool)) (.vList ((pa0 :: pas).map .vBool))).err =
         none) ∧
    (∀ (es : List ℤ) (l bc ac : String) (lw : ℤ) (dw da pa : Bool),
       es.length ≠ (x :: xs).length →
       CustomBoxPlot.add_boxplot stats self (.array (.d1 (x :: xs)))
         (.vList (es.map .vInt)) (.vStr l) (.vStr bc) (.vStr ac) (.vInt lw)
         (.vBool dw) (.vBool da) (.vBool pa) =
         ⟨self, [], some (.valueErrorLength "position" (x :: xs).length es.length)⟩) ∧
    (∀ (p : ℤ) (es : List String) (bc ac : String) (lw : ℤ) (dw da pa : Bool),
       es.length ≠ (x :: xs).length →
       CustomBoxPlot.add_boxplot stats self (.array (.d1 (x :: xs)))
         (.vInt p) (.vList (es.map .vStr)) (.vStr bc) (.vStr ac) (.vInt lw)
         (.vBool dw) (.vBool da) (.vBool pa) =
         ⟨self, [], some (.valueErrorLength "label" (x :: xs).length es.length)⟩) ∧
    (∀ (p : ℤ) (l : String) (es : List String) (ac : String) (lw : ℤ) (dw da pa : Bool),
       es.length ≠ (x :: xs).length →
       CustomBoxPlot.add_boxplot stats self (.array (.d1 (x :: xs)))
         (.vInt p) (.vStr l) (.vList (es.map .vStr)) (.vStr ac) (.vInt lw)
         (.vBool dw) (.vBool da) (.vBool pa) =
         ⟨self, [], some (.valueErrorLength "box_color" (x :: xs).length es.length)⟩) ∧
    (∀ (p : ℤ) (l bc : String) (es : List String) (lw : ℤ) (dw da pa : Bool),
       es.length ≠ (x :: xs).length →
       CustomBoxPlot.add_boxplot stats self (.array (.d1 (x :: xs)))
         (.vInt p) (.vStr l) (.vStr bc) (.vList (es.map .vStr)) (.vInt lw)
         (.vBool dw) (.vBool da) (.vBool pa) =
         ⟨self, [], some (.valueErrorLength "average_color" (x :: xs).length es.length)⟩) ∧
    (∀ (p : ℤ) (l bc ac : String) (es : List ℤ) (dw da pa : Bool),
       es.length ≠ (x :: xs).length →
       CustomBoxPlot.add_boxplot stats self (.array (.d1 (x :: xs)))
         (.vInt p) (.vStr l) (.vStr bc) (.vStr ac) (.vList (es.map .vInt))
         (.vBool dw) (.vBool da) (.vBool pa) =
         ⟨self, [], some (.valueErrorLength "linewidth" (x :: xs).length es.length)⟩) ∧
    (∀ (p : ℤ) (l bc ac : String) (lw : ℤ) (es : List Bool) (da pa : Bool),
       es.length ≠ (x :: xs).length →
       CustomBoxPlot.add_boxplot stats self (.array (.d1 (x :: xs)))
         (.vInt p) (.vStr l) (.vStr bc) (.vStr ac) (.vInt lw)
         (.vList (es.map .vBool)) (.vBool da) (.vBool pa) =
         ⟨self, [], some (.valueErrorLength "draw_whiskers" (x :: xs).length es.length)⟩) ∧
    (∀ (p : ℤ) (l bc ac : String) (lw : ℤ) (dw : Bool) (es : List Bool) (pa : Bool),
       es.length ≠ (x :: xs).length →
       CustomBoxPlot.add_boxplot stats self (.array (.d1 (x :: xs)))
         (.vInt p) (.vStr l) (.vStr bc) (.vStr ac) (.vInt lw)
         (.vBool dw) (.vList (es.map .vBool)) (.vBool pa) =
         ⟨self, [], some (.valueErrorLength "draw_average" (x :: xs).length es.length)⟩) ∧
    (∀ (p : ℤ) (l bc ac : String) (lw : ℤ) (dw da : Bool) (es : List Bool),
       es.length ≠ (x :: xs).length →
       CustomBoxPlot.add_boxplot stats self (.array (.d1 (x :: xs)))
         (.vInt p) (.vStr l) (.vStr bc) (.vStr ac) (.vInt lw)
         (.vBool dw) (.vBool da) (.vList (es.map .vBool)) =
         ⟨self, [], some (.valueErrorLength "print_average" (x :: xs).length es.length)⟩) := by
  refine ⟨?_, ?_, ?_, ?_, ?_, ?_, ?_, ?_, ?_⟩
  · intro p0 ps l0 ls bc0 bcs ac0 acs lw0 lws dw0 dws da0 das pa0 pas
    intro h1 h2 h3 h4 h5 h6 h7 h8
    simp only [CustomBoxPlot.add_boxplot, labelDefault, NDArray.ndim, NDArray.shape0,
      convertAll, convert2sequence_intSeq, convert2sequence_strSeq,
      convert2sequence_boolSeq, h1, h2, h3, h4, h5, h6, h7, h8,
      eq_self_iff_true, if_true]
    simp [List.map_cons, leafDraw_cons]
  · intro es l bc ac lw dw da pa hlen
    simp only [List.length_cons] at hlen
    simp [CustomBoxPlot.add_boxplot, labelDefault, NDArray.ndim, NDArray.shape0,
      convertAll, convert2sequence_intSeq, hlen]
  · intro p es bc ac lw dw da pa hlen
    simp only [List.length_cons] at hlen
    simp [CustomBoxPlot.add_boxplot, labelDefault, NDArray.ndim, NDArray.shape0,
      convertAll, convert2sequence_strSeq, hlen]
  · intro p l es ac lw dw da pa hlen
    simp only [List.length_cons] at hlen
    simp [CustomBoxPlot.add_boxplot, labelDefault, NDArray.ndim, NDArray.shape0,
      convertAll, convert2sequence_strSeq, hlen]
  · intro p l bc es lw dw da pa hlen
    simp only [List.length_cons] at hlen
    simp [CustomBoxPlot.add_boxplot, labelDefault, NDArray.ndim, NDArray.shape0,
      convertAll, convert2sequence_strSeq, hlen]
  · intro p l bc ac es dw da pa hlen
    simp only [List.length_cons] at hlen
    simp [CustomBoxPlot.add_boxplot, labelDefault, NDArray.ndim, NDArray.shape0,
      convertAll, convert2sequence_intSeq, hlen]
  · intro p l bc ac lw es da pa hlen
    simp only [List.length_cons] at hlen
    simp [CustomBoxPlot.add_boxplot, labelDefault, NDArray.ndim, NDArray.shape0,
      convertAll, convert2sequence_boolSeq, hlen]
  · intro p l bc ac lw dw es pa hlen
    simp only [List.length_cons] at hlen
    simp [CustomBoxPlot.add_boxplot, labelDefault, NDArray.ndim, NDArray.shape0,
      convertAll, convert2sequence_boolSeq, hlen]
  · intro p l bc ac lw dw da es hlen
    simp only [List.length_cons] at hlen
    simp [CustomBoxPlot.add_boxplot, labelDefault, NDArray.ndim, NDArray.shape0,
      convertAll, convert2sequence_boolSeq, hlen]

/-- Witness for the amended C2 on the 1-D array `[1, 2]` (`shape[0] = 2`):
length-2 sequences for all eight parameters are accepted, while a length-1
`position` sequence fails with the length error. -/
theorem seq_params_broadcast_length_witness :
    ((CustomBoxPlot.add_boxplot statsZero emptyPlot (.array (.d1 [1, 2]))
        (.vList [.vInt 5, .vInt 7]) (.vList [.vStr "u", .vStr "v"])
        (.vList [.vStr "black", .vStr "blue"]) (.vList [.vStr "red", .vStr "green"])
        (.vList [.vInt 2, .vInt 3]) (.vList [.vBool true, .vBool false])
        (.vList [.vBool true, .vBool false]) (.vList [.vBool false, .vBool true])).err =
      none) ∧
    CustomBoxPlot.add_boxplot statsZero emptyPlot (.array (.d1 [1, 2]))
        (.vList [.vInt 5]) (.vStr "x") (.vStr "black") (.vStr "red") (.vInt 2)
        (.vBool true) (.vBool true) (.vBool false) =
      ⟨emptyPlot, [], some (.valueErrorLength "position" 2 1)⟩ :=
  ⟨(seq_params_broadcast_length statsZero emptyPlot 1 [2]).1
      5 [7] "u" ["v"] "black" ["blue"] "red" ["green"] 2 [3] true [false]
      true [false] false [true] rfl rfl rfl rfl rfl rfl rfl rfl,
   (seq_params_broadcast_length statsZero emptyPlot 1 [2]).2.1
      [5] "x" "black" "red" 2 true true false (by decide)⟩

/-- The single-series drawing path raises only `IndexError`, never a
validation error. -/
theorem leafDraw_err_index_only (stats : NumpyStats) (self : CustomBoxPlot) (xs : List ℚ)
    (position label box_color average_color linewidth
     draw_whiskers draw_average print_average : List PyVal) (e : PyError)
    (he : (CustomBoxPlot.leafDraw stats self xs position label box_color average_color
      linewidth draw_whiskers draw_average print_average).err = some e) :
    isValidationError e = false := by
  unfold CustomBoxPlot.leafDraw at he
  repeat' split at he
  all_goals try simp only [] at he
  repeat' split at he
  all_goals
    first
      | exact Option.noConfusion he
      | (cases he; rfl)

/-- Every element of every list `convertAll` accepts has the expected
type. -/
theorem convertAll_ok_isinstance {position label box_color average_color linewidth
    draw_whiskers draw_average print_average : PyVal} {N : ℕ} {ps : ParamSeqs}
    (h : convertAll position label box_color average_color linewidth
      draw_whiskers draw_average print_average N = .ok ps) :
    (∀ e ∈ ps.position, isinstance e .int = true) ∧
    (∀ e ∈ ps.label, isinstance e .str = true) ∧
    (∀ e ∈ ps.box_color, isinstance e .str = true) ∧
    (∀ e ∈ ps.average_color, isinstance e .str = true) ∧
    (∀ e ∈ ps.linewidth, isinstance e .int = true) ∧
    (∀ e ∈ ps.draw_whiskers, isinstance e .bool = true) ∧
    (∀ e ∈ ps.draw_average, isinstance e .bool = true) ∧
    (∀ e ∈ ps.print_average, isinstance e .bool = true) := by
  unfold convertAll at h
  split at h
  · exact Except.noConfusion h
  next e1 =>
  split at h
  · exact Except.noConfusion h
  next e2 =>
  split at h
  · exact Except.noConfusion h
  next e3 =>
  split at h
  · exact Except.noConfusion h
  next e4 =>
  split at h
  · exact Except.noConfusion h
  next e5 =>
  split at h
  · exact Except.noConfusion h
  next e6 =>
  split at h
  · exact Except.noConfusion h
  next e7 =>
  split at h
  · exact Except.noConfusion h
  next e8 =>
  injection h with h
  subst h
  exact ⟨convert2sequence_ok_isinstance e1, convert2sequence_ok_isinstance e2,
    convert2sequence_ok_isinstance e3, convert2sequence_ok_isinstance e4,
    convert2sequence_ok_isinstance e5, convert2sequence_ok_isinstance e6,
    convert2sequence_ok_isinstance e7, convert2sequence_ok_isinstance e8⟩

/-- With `label` a `str`-instance, the label default is the identity. -/
theorem labelDefault_of_str {position label : PyVal}
    (h : isinstance label .str = true) : labelDefault position label = label := by
  cases label <;> simp_all [isinstance, labelDefault]

/-- A loop iteration with scalars of the validated types raises only
`IndexError`, never a validation error: its own normalization pass always
succeeds. -/
theorem add_boxplot1_err_index_only (stats : NumpyStats) (self : CustomBoxPlot)
    (row : List ℚ) {p l bc ac lw dw da pa : PyVal}
    (h1 : isinstance p .int = true) (h2 : isinstance l .str = true)
    (h3 : isinstance bc .str = true) (h4 : isinstance ac .str = true)
    (h5 : isinstance lw .int = true) (h6 : isinstance dw .bool = true)
    (h7 : isinstance da .bool = true) (h8 : isinstance pa .bool = true)
    (e : PyError)
    (he : (CustomBoxPlot.add_boxplot1 stats self row p l bc ac lw dw da pa).err = some e) :
    isValidationError e = false := by
  unfold CustomBoxPlot.add_boxplot1 at he
  rw [labelDefault_of_str h2, convertAll_scalar row.length h1 h2 h3 h4 h5 h6 h7 h8] at he
  exact leafDraw_err_index_only stats self row _ _ _ _ _ _ _ _ e he

/-- Every bundle produced by zipping validated parameter lists is valid. -/
theorem zipArgs_valid {rows : List (List ℚ)} {ps ls bcs acs lws dws das pas : List PyVal}
    (hp : ∀ e ∈ ps, isinstance e .int = true) (hl : ∀ e ∈ ls, isinstance e .str = true)
    (hbc : ∀ e ∈ bcs, isinstance e .str = true) (hac : ∀ e ∈ acs, isinstance e .str = true)
    (hlw : ∀ e ∈ lws, isinstance e .int = true) (hdw : ∀ e ∈ dws, isinstance e .bool = true)
    (hda : ∀ e ∈ das, isinstance e .bool = true) (hpa : ∀ e ∈ pas, isinstance e .bool = true) :
    ∀ it ∈ zipArgs rows ps ls bcs acs lws dws das pas, SeriesArgsValid it := by
  induction rows generalizing ps ls bcs acs lws dws das pas with
  | nil => intro it hit; simp [zipArgs] at hit
  | cons r rs ih =>
    intro it hit
    cases ps with
    | nil => simp [zipArgs] at hit
    | cons p ps =>
    cases ls with
    | nil => simp [zipArgs] at hit
    | cons l ls =>
    cases bcs with
    | nil => simp [zipArgs] at hit
    | cons bc bcs =>
    cases acs with
    | nil => simp [zipArgs] at hit
    | cons ac acs =>
    cases lws with
    | nil => simp [zipArgs] at hit
    | cons lw lws =>
    cases dws with
    | nil => simp [zipArgs] at hit
    | cons dw dws =>
    cases das with
    | nil => simp [zipArgs] at hit
    | cons da das =>
    cases pas with
    | nil => simp [zipArgs] at hit
    | cons pa pas =>
      rw [zipArgs] at hit
      rcases List.mem_cons.mp hit with rfl | hit
      · exact ⟨hp p (by simp), hl l (by simp), hbc bc (by simp), hac ac (by simp),
          hlw lw (by simp), hdw dw (by simp), hda da (by simp), hpa pa (by simp)⟩
      · exact ih (fun e hee => hp e (by simp [hee])) (fun e hee => hl e (by simp [hee]))
          (fun e hee => hbc e (by simp [hee])) (fun e hee => hac e (by simp [hee]))
          (fun e hee => hlw e (by simp [hee])) (fun e hee => hdw e (by simp [hee]))
          (fun e hee => hda e (by simp [hee])) (fun e hee => hpa e (by simp [hee]))
          it hit

/-- The 2-D dispatch loop over valid bundles raises only `IndexError`. -/
theorem runRows_err_index_only (stats : NumpyStats) (items : List SeriesArgs)
    (hval : ∀ it ∈ items, SeriesArgsValid it) :
    ∀ (self : CustomBoxPlot) (e : PyError),
      (CustomBoxPlot.runRows stats self items).err = some e →
      isValidationError e = false := by
  induction items with
  | nil =>
    intro self e he
    simp [CustomBoxPlot.runRows] at he
  | cons item rest ih =>
    intro self e he
    obtain ⟨v1, v2, v3, v4, v5, v6, v7, v8⟩ := hval item (by simp)
    unfold CustomBoxPlot.runRows at he
    cases ho : CustomBoxPlot.add_boxplot1 stats self item.row item.position item.label
        item.box_color item.average_color item.linewidth item.draw_whiskers
        item.draw_average item.print_average with
    | mk st1 calls1 err1 =>
      rw [ho] at he
      cases err1 with
      | some e1 =>
        have he1 : e1 = e := by simpa using he
        subst he1
        exact add_boxplot1_err_index_only stats self item.row v1 v2 v3 v4 v5 v6 v7 v8
          e1 (by rw [ho])
      | none =>
        change (match CustomBoxPlot.runRows stats st1 rest with
          | ⟨st2, calls2, err2⟩ => (⟨st2, calls1 ++ calls2, err2⟩ : Outcome)).err =
            some e at he
        cases h3 : CustomBoxPlot.runRows stats st1 rest with
        | mk st2 calls2 err2 =>
          rw [h3] at he
          refine ih (fun it hit => hval it (by simp [hit])) st1 e ?_
          rw [h3]
          simpa using he

/-- Claim C3: whenever a top-level `add_boxplot` call raises an error of
the documented validation taxonomy (`TypeError` for a non-array or a wrong
element type, the `ndim` `ValueError`, or a sequence-length `ValueError`),
it does so before any drawing primitive is issued and before the tick
registry is touched: the trace is empty and the state is unchanged. -/
theorem add_boxplot_validation_all_or_nothing (stats : NumpyStats)
    (self : CustomBoxPlot) (data : DataArg)
    (position label box_color average_color linewidth
     draw_whiskers draw_average print_average : PyVal) (e : PyError)
    (he : (CustomBoxPlot.add_boxplot stats self data position label box_color
      average_color linewidth draw_whiskers draw_average print_average).err = some e)
    (hv : isValidationError e = true) :
    (CustomBoxPlot.add_boxplot stats self data position label box_color
      average_color linewidth draw_whiskers draw_average print_average).calls = [] ∧
    (CustomBoxPlot.add_boxplot stats self data position label box_color
      average_color linewidth draw_whiskers draw_average print_average).state = self := by
  unfold CustomBoxPlot.add_boxplot at he ⊢
  cases data with
  | notArray v => exact ⟨rfl, rfl⟩
  | array a =>
    by_cases hdim : 3 ≤ a.ndim
    · simp only [if_pos hdim]
      exact ⟨by trivial, by trivial⟩
    · simp only [if_neg hdim] at he ⊢
      cases a with
      | d0 x =>
        simp only [NDArray.shape0]
        exact ⟨by trivial, by trivial⟩
      | dN n =>
        simp only [NDArray.shape0] at he ⊢
        cases hc : convertAll position (labelDefault position label) box_color
            average_color linewidth draw_whiskers draw_average print_average 0 with
        | error e2 => exact ⟨by trivial, by trivial⟩
        | ok ps =>
          rw [hc] at he
          exact Option.noConfusion he
      | d1 xs =>
        simp only [NDArray.shape0] at he ⊢
        cases hc : convertAll position (labelDefault position label) box_color
            average_color linewidth draw_whiskers draw_average print_average xs.length with
        | error e2 => exact ⟨by trivial, by trivial⟩
        | ok ps =>
          rw [hc] at he
          have hf := leafDraw_err_index_only stats self xs ps.position ps.label
            ps.box_color ps.average_color ps.linewidth ps.draw_whiskers
            ps.draw_average ps.print_average e he
          rw [hf] at hv
          exact Bool.noConfusion hv
      | d2 rows =>
        simp only [NDArray.shape0] at he ⊢
        cases hc : convertAll position (labelDefault position label) box_color
            average_color linewidth draw_whiskers draw_average print_average rows.length with
        | error e2 => exact ⟨by trivial, by trivial⟩
        | ok ps =>
          rw [hc] at he
          obtain ⟨i1, i2, i3, i4, i5, i6, i7, i8⟩ := convertAll_ok_isinstance hc
          have hf := runRows_err_index_only stats
            (zipArgs rows ps.position ps.label ps.box_color ps.average_color
              ps.linewidth ps.draw_whiskers ps.draw_average ps.print_average)
            (zipArgs_valid i1 i2 i3 i4 i5 i6 i7 i8) self e he
          rw [hf] at hv
          exact Bool.noConfusion hv

/-- Witness for C3: the non-array input raises `TypeError` for `data` with
an empty trace and unchanged registry. -/
theorem add_boxplot_validation_all_or_nothing_witness :
    (CustomBoxPlot.add_boxplot statsZero emptyPlot (.notArray .vNone) (.vInt 1)
      (.vStr "a") (.vStr "black") (.vStr "red") (.vInt 2) (.vBool true)
      (.vBool true) (.vBool false)).calls = [] ∧
    (CustomBoxPlot.add_boxplot statsZero emptyPlot (.notArray .vNone) (.vInt 1)
      (.vStr "a") (.vStr "black") (.vStr "red") (.vInt 2) (.vBool true)
      (.vBool true) (.vBool false)).state = emptyPlot :=
  add_boxplot_validation_all_or_nothing statsZero emptyPlot (.notArray .vNone)
    (.vInt 1) (.vStr "a") (.vStr "black") (.vStr "red") (.vInt 2) (.vBool true)
    (.vBool true) (.vBool false) (.typeError "data") rfl rfl

end MatplotlibCustomPlot
